import Mathlib

/-!
Verification of the resume-builder document model, its mutation operations,
its persistence layer and its two template renderers, shallowly embedded
from `src/resume_builder_react.jsx`.

Conventions of the embedding:
* JavaScript objects become Lean structures; the React state (`data`) is
  threaded explicitly, so each mutation helper is a pure function
  `... → ResumeDocument → ResumeDocument`.
* `Date.now()` is an external clock; operations that call it take the
  current clock value `now : Int` as an explicit argument.
* `localStorage` is a single slot `Option StoredText`; the text stored in
  it is abstracted to the result of `JSON.parse` on it (`StoredText.parsed j`
  for well-formed text parsing to the JSON value `j`, `StoredText.malformed`
  for text on which `JSON.parse` throws).  `JSON.stringify` of a plain data
  object is modelled as its `JsonVal` encoding, and the JavaScript fact that
  `JSON.parse (JSON.stringify x) = x` for such objects is the identity at the
  `JsonVal` level.
* JSX output becomes a `VTree` of element nodes and text leaves; class
  names and styling are dropped, element order and text content are kept.
-/

set_option maxHeartbeats 1000000

namespace ResumeBuilder

/-- The `personal` record of the document (all free-text strings). -/
structure Personal where
  firstName : String
  lastName : String
  title : String
  email : String
  phone : String
  location : String
  linkedin : String
  website : String
deriving DecidableEq, Repr

/-- An entry of the `experience` collection; `id` comes from `Date.now()`. -/
structure ExperienceEntry where
  id : Int
  title : String
  company : String
  start : String
  «end» : String
  description : String
deriving DecidableEq, Repr

/-- An entry of the `education` collection; `id` comes from `Date.now()`. -/
structure EducationEntry where
  id : Int
  degree : String
  school : String
  year : String
deriving DecidableEq, Repr

/-- The whole resume document (the React `data` state).  The source keeps
`template` as a plain string (`modern` or `classic`), so the embedding
does too. -/
structure ResumeDocument where
  personal : Personal
  summary : String
  skills : List String
  experience : List ExperienceEntry
  education : List EducationEntry
  template : String
deriving DecidableEq, Repr

/-- Definition `defaultData` from the source.  The two ids are `Date.now()` and
`Date.now()+1` evaluated at module load, so the definition takes that
clock value `t0` as a parameter. -/
def defaultData (t0 : Int) : ResumeDocument :=
  { personal :=
      { firstName := "Jane"
        lastName := "Doe"
        title := "Product Manager"
        email := "jane.doe@example.com"
        phone := "(555) 555-5555"
        location := "Wilmington, DE"
        linkedin := "linkedin.com/in/janedoe"
        website := "janedoe.com" }
    summary := "Product manager with 5+ years of experience launching customer-focused features and leading cross-functional teams."
    skills := ["Product Strategy", "Roadmapping", "User Research", "Stakeholder Management"]
    experience :=
      [{ id := t0
         title := "Associate Product Manager"
         company := "TechCorp"
         start := "Jan 2021"
         «end» := "Present"
         description := "Owned feature lifecycle from discovery to launch. Led A/B tests and improved retention by 12%." }]
    education :=
      [{ id := t0 + 1
         degree := "B.A. Business Administration"
         school := "University of Delaware"
         year := "2019" }]
    template := "modern" }

/-- The named fields of `personal`; the source passes the field name as a
string key into a computed property, always one of these eight. -/
inductive PersonalField
  | firstName | lastName | title | email | phone | location | linkedin | website
deriving DecidableEq, Repr

/-- Read one field of `personal` by name. -/
def getPersonal (p : Personal) : PersonalField → String
  | .firstName => p.firstName
  | .lastName => p.lastName
  | .title => p.title
  | .email => p.email
  | .phone => p.phone
  | .location => p.location
  | .linkedin => p.linkedin
  | .website => p.website

/-- The spread-with-computed-key update of `personal` used by
`setPersonalField`. -/
def setPersonal (p : Personal) : PersonalField → String → Personal
  | .firstName, v => { p with firstName := v }
  | .lastName, v => { p with lastName := v }
  | .title, v => { p with title := v }
  | .email, v => { p with email := v }
  | .phone, v => { p with phone := v }
  | .location, v => { p with location := v }
  | .linkedin, v => { p with linkedin := v }
  | .website, v => { p with website := v }

/-- Operation `setPersonalField(field, value)` from the source. -/
def setPersonalField (field : PersonalField) (value : String) (doc : ResumeDocument) : ResumeDocument :=
  { doc with personal := setPersonal doc.personal field value }

/-- Operation `setSummary(value)` from the source. -/
def setSummary (value : String) (doc : ResumeDocument) : ResumeDocument :=
  { doc with summary := value }

/-- Operation `setTemplate(tpl)` from the source: it stores `tpl` unconditionally,
with no validation of the variant. -/
def setTemplate (tpl : String) (doc : ResumeDocument) : ResumeDocument :=
  { doc with template := tpl }

/-- Operation `addSkill(skill)` from the source, whose guard is the falsy test on the argument — for a string
argument, falsy means the empty string; any other string is appended. -/
def addSkill (skill : String) (doc : ResumeDocument) : ResumeDocument :=
  if skill = "" then doc
  else { doc with skills := doc.skills ++ [skill] }

/-- Operation `removeSkill(index)` from the source: keep every element whose position
differs from `index`. -/
def removeSkill (index : Nat) (doc : ResumeDocument) : ResumeDocument :=
  { doc with skills := ((doc.skills.enum.filter (fun p => p.1 != index)).map (fun p => p.2)) }

/-- Operation `addExperience()` from the source: appends a fresh entry whose id is
`Date.now()`, passed here as `now`. -/
def addExperience (now : Int) (doc : ResumeDocument) : ResumeDocument :=
  { doc with experience := doc.experience ++ [{ id := now, title := "", company := "", start := "", «end» := "", description := "" }] }

/-- The named text fields of an `ExperienceEntry` (the update key). -/
inductive ExpField
  | title | company | start | «end» | description
deriving DecidableEq, Repr

/-- The spread-with-computed-key update of one experience entry. -/
def setExpField (e : ExperienceEntry) : ExpField → String → ExperienceEntry
  | .title, v => { e with title := v }
  | .company, v => { e with company := v }
  | .start, v => { e with start := v }
  | .«end», v => { e with «end» := v }
  | .description, v => { e with description := v }

/-- Operation `updateExperience(id, field, value)` from the source. -/
def updateExperience (id : Int) (field : ExpField) (value : String) (doc : ResumeDocument) : ResumeDocument :=
  { doc with experience := doc.experience.map (fun exp => if exp.id = id then setExpField exp field value else exp) }

/-- Operation `removeExperience(id)` from the source. -/
def removeExperience (id : Int) (doc : ResumeDocument) : ResumeDocument :=
  { doc with experience := doc.experience.filter (fun e => e.id != id) }

/-- Operation `addEducation()` from the source; the fresh id is `Date.now()`. -/
def addEducation (now : Int) (doc : ResumeDocument) : ResumeDocument :=
  { doc with education := doc.education ++ [{ id := now, degree := "", school := "", year := "" }] }

/-- The named text fields of an `EducationEntry` (the update key). -/
inductive EduField
  | degree | school | year
deriving DecidableEq, Repr

/-- The spread-with-computed-key update of one education entry. -/
def setEduField (e : EducationEntry) : EduField → String → EducationEntry
  | .degree, v => { e with degree := v }
  | .school, v => { e with school := v }
  | .year, v => { e with year := v }

/-- Operation `updateEducation(id, field, value)` from the source. -/
def updateEducation (id : Int) (field : EduField) (value : String) (doc : ResumeDocument) : ResumeDocument :=
  { doc with education := doc.education.map (fun ed => if ed.id = id then setEduField ed field value else ed) }

/-- Operation `removeEducation(id)` from the source. -/
def removeEducation (id : Int) (doc : ResumeDocument) : ResumeDocument :=
  { doc with education := doc.education.filter (fun e => e.id != id) }

/-- Operation bound to the Clear button: the inline state update that
empties `skills`. -/
def clearSkills (doc : ResumeDocument) : ResumeDocument :=
  { doc with skills := [] }

/-- One DocumentStore mutation, with the clock value for the operations
that read `Date.now()`. -/
inductive Mutation
  | setPersonalField (f : PersonalField) (v : String)
  | setSummary (v : String)
  | setTemplate (t : String)
  | addSkill (s : String)
  | removeSkill (i : Nat)
  | clearSkills
  | addExperience (now : Int)
  | updateExperience (id : Int) (f : ExpField) (v : String)
  | removeExperience (id : Int)
  | addEducation (now : Int)
  | updateEducation (id : Int) (f : EduField) (v : String)
  | removeEducation (id : Int)
deriving Repr

/-- Apply one mutation to a document. -/
def applyMutation (m : Mutation) (doc : ResumeDocument) : ResumeDocument :=
  match m with
  | .setPersonalField f v => setPersonalField f v doc
  | .setSummary v => setSummary v doc
  | .setTemplate t => setTemplate t doc
  | .addSkill s => addSkill s doc
  | .removeSkill i => removeSkill i doc
  | .clearSkills => clearSkills doc
  | .addExperience now => addExperience now doc
  | .updateExperience id f v => updateExperience id f v doc
  | .removeExperience id => removeExperience id doc
  | .addEducation now => addEducation now doc
  | .updateEducation id f v => updateEducation id f v doc
  | .removeEducation id => removeEducation id doc

/-- Apply a sequence of mutations in order. -/
def applyMutations (ms : List Mutation) (doc : ResumeDocument) : ResumeDocument :=
  ms.foldl (fun d m => applyMutation m d) doc

/-- A JSON value; numbers are restricted to integers because the only
numeric fields of the document are the `Date.now()` ids. -/
inductive JsonVal
  | null
  | bool (b : Bool)
  | num (n : Int)
  | str (s : String)
  | arr (elems : List JsonVal)
  | obj (fields : List (String × JsonVal))
deriving Repr

/-- JSON encoding of `personal`, field for field. -/
def encodePersonal (p : Personal) : JsonVal :=
  .obj [("firstName", .str p.firstName), ("lastName", .str p.lastName),
        ("title", .str p.title), ("email", .str p.email),
        ("phone", .str p.phone), ("location", .str p.location),
        ("linkedin", .str p.linkedin), ("website", .str p.website)]

/-- JSON encoding of one experience entry. -/
def encodeExp (e : ExperienceEntry) : JsonVal :=
  .obj [("id", .num e.id), ("title", .str e.title), ("company", .str e.company),
        ("start", .str e.start), ("end", .str e.«end»),
        ("description", .str e.description)]

/-- JSON encoding of one education entry. -/
def encodeEdu (e : EducationEntry) : JsonVal :=
  .obj [("id", .num e.id), ("degree", .str e.degree),
        ("school", .str e.school), ("year", .str e.year)]

/-- JSON encoding of the whole document, as `JSON.stringify` serialises the
plain `data` object (field order is declaration order). -/
def encodeDoc (d : ResumeDocument) : JsonVal :=
  .obj [("personal", encodePersonal d.personal),
        ("summary", .str d.summary),
        ("skills", .arr (d.skills.map .str)),
        ("experience", .arr (d.experience.map encodeExp)),
        ("education", .arr (d.education.map encodeEdu)),
        ("template", .str d.template)]

/-- Structural decoder for `personal`: succeeds exactly on the shape
`encodePersonal` produces. -/
def decodePersonal : JsonVal → Option Personal
  | .obj [("firstName", .str fn), ("lastName", .str ln),
          ("title", .str ti), ("email", .str em),
          ("phone", .str ph), ("location", .str lo),
          ("linkedin", .str li), ("website", .str we)] =>
      some { firstName := fn, lastName := ln, title := ti, email := em,
             phone := ph, location := lo, linkedin := li, website := we }
  | _ => none

/-- Structural decoder for one experience entry. -/
def decodeExp : JsonVal → Option ExperienceEntry
  | .obj [("id", .num i), ("title", .str ti), ("company", .str co),
          ("start", .str st), ("end", .str en), ("description", .str de)] =>
      some { id := i, title := ti, company := co, start := st, «end» := en, description := de }
  | _ => none

/-- Structural decoder for one education entry. -/
def decodeEdu : JsonVal → Option EducationEntry
  | .obj [("id", .num i), ("degree", .str dg), ("school", .str sc), ("year", .str yr)] =>
      some { id := i, degree := dg, school := sc, year := yr }
  | _ => none

/-- Decode a JSON array of strings. -/
def decodeStrList : List JsonVal → Option (List String)
  | [] => some []
  | .str s :: rest => (decodeStrList rest).map (fun l => s :: l)
  | _ => none

/-- Decode a JSON array of experience entries. -/
def decodeExpList : List JsonVal → Option (List ExperienceEntry)
  | [] => some []
  | j :: rest => do
      let e ← decodeExp j
      let es ← decodeExpList rest
      pure (e :: es)

/-- Decode a JSON array of education entries. -/
def decodeEduList : List JsonVal → Option (List EducationEntry)
  | [] => some []
  | j :: rest => do
      let e ← decodeEdu j
      let es ← decodeEduList rest
      pure (e :: es)

/-- Structural decoder for a whole document: `some` exactly when the JSON
value is a fully-populated `ResumeDocument` as `encodeDoc` lays it out. -/
def decodeDoc : JsonVal → Option ResumeDocument
  | .obj [("personal", pj), ("summary", .str su), ("skills", .arr skj),
          ("experience", .arr exj), ("education", .arr edj),
          ("template", .str tp)] => do
      let p ← decodePersonal pj
      let sk ← decodeStrList skj
      let ex ← decodeExpList exj
      let ed ← decodeEduList edj
      pure { personal := p, summary := su, skills := sk, experience := ex, education := ed, template := tp }
  | _ => none

/-- The text stored in the persistence slot, abstracted to the result of
`JSON.parse` on it: `parsed j` stands for well-formed text that parses to
the JSON value `j`; `malformed` stands for text on which `JSON.parse`
throws. -/
inductive StoredText
  | parsed (j : JsonVal)
  | malformed
deriving Repr

/-- The `wf_resume_draft` slot of `localStorage`: `none` when absent. -/
def Slot := Option StoredText

/-- The `useState` initializer of `ResumeBuilder` (the load path):
`saved ? JSON.parse(saved) : defaultData`, with the whole read wrapped in
try/catch returning `defaultData`.  The returned JavaScript value is a
`JsonVal`; returning the `defaultData` object is returning its encoding.
`t0` is the clock value that seeded `defaultData`. -/
def load (t0 : Int) (slot : Slot) : JsonVal :=
  match slot with
  | none => encodeDoc (defaultData t0)
  | some .malformed => encodeDoc (defaultData t0)
  | some (.parsed j) => j

/-- The `useEffect` save path: `localStorage.setItem` of
`JSON.stringify(data)`, overwriting the slot.  Stringifying a plain data
object always yields well-formed text that parses back to its encoding. -/
def save (d : ResumeDocument) (_slot : Slot) : Slot :=
  some (.parsed (encodeDoc d))

/-- The rendered visual tree: element nodes (tag plus children, class names
dropped) and text leaves, in document order as the JSX lays them out. -/
inductive VTree
  | text (s : String)
  | node (tag : String) (children : List VTree)

/-- One experience entry as `ModernTemplate` renders it: title and company
stacked on the left, the date range on the right, description below. -/
def modernExpItem (exp : ExperienceEntry) : VTree :=
  .node "div"
    [ .node "div"
        [ .node "div" [ .node "div" [ .text exp.title ], .node "div" [ .text exp.company ] ],
          .node "div" [ .text exp.start, .text " — ", .text exp.«end» ] ],
      .node "p" [ .text exp.description ] ]

/-- One education entry as both templates render it: degree, then
"school • year". -/
def eduItem (ed : EducationEntry) : VTree :=
  .node "div"
    [ .node "div" [ .text ed.degree ],
      .node "div" [ .text ed.school, .text " • ", .text ed.year ] ]

/-- One skill tag as both templates render it. -/
def skillItem (s : String) : VTree :=
  .node "span" [ .text s ]

/-- Component `ModernTemplate` from the source: header with name/title
left and contact block right, then Summary, then a grid whose wide column
holds Experience then Education and whose narrow column holds Skills. -/
def ModernTemplate (data : ResumeDocument) : VTree :=
  .node "div"
    [ .node "div"
        [ .node "div"
            [ .node "h1" [ .text data.personal.firstName, .text " ", .text data.personal.lastName ],
              .node "h2" [ .text data.personal.title ] ],
          .node "div"
            [ .node "div" [ .text data.personal.email ],
              .node "div" [ .text data.personal.phone ],
              .node "div" [ .text data.personal.location ],
              .node "div" [ .text data.personal.linkedin ],
              .node "div" [ .text data.personal.website ] ] ],
      .node "hr" [],
      .node "section"
        [ .node "h3" [ .text "Summary" ],
          .node "p" [ .text data.summary ] ],
      .node "div"
        [ .node "div"
            [ .node "section"
                [ .node "h3" [ .text "Experience" ],
                  .node "div" (data.experience.map modernExpItem) ],
              .node "section"
                [ .node "h3" [ .text "Education" ],
                  .node "div" (data.education.map eduItem) ] ],
          .node "aside"
            [ .node "h3" [ .text "Skills" ],
              .node "div" (data.skills.map skillItem) ] ] ]

/-- One experience entry as `ClassicTemplate` renders it: "title — company"
inline with the description below on the left, the date range on the
right of the same row. -/
def classicExpItem (exp : ExperienceEntry) : VTree :=
  .node "div"
    [ .node "div"
        [ .node "div" [ .text exp.title, .text " — ", .node "span" [ .text exp.company ] ],
          .node "div" [ .text exp.description ] ],
      .node "div" [ .text exp.start, .text " — ", .text exp.«end» ] ]

/-- Component `ClassicTemplate` from the source: centred header, then
Professional Summary, Experience, Education and Skills, each full width in
that fixed order. -/
def ClassicTemplate (data : ResumeDocument) : VTree :=
  .node "div"
    [ .node "div"
        [ .node "h1" [ .text data.personal.firstName, .text " ", .text data.personal.lastName ],
          .node "div" [ .text data.personal.title, .text " • ", .text data.personal.location ],
          .node "div" [ .text data.personal.email, .text " • ", .text data.personal.phone, .text " • ", .text data.personal.linkedin ] ],
      .node "hr" [],
      .node "section"
        [ .node "h3" [ .text "Professional Summary" ],
          .node "p" [ .text data.summary ] ],
      .node "section"
        [ .node "h3" [ .text "Experience" ],
          .node "div" (data.experience.map classicExpItem) ],
      .node "section"
        [ .node "h3" [ .text "Education" ],
          .node "div" (data.education.map eduItem) ],
      .node "section"
        [ .node "h3" [ .text "Skills" ],
          .node "div" (data.skills.map skillItem) ] ]

/-- The preview node: ModernTemplate when `template` equals `modern`, else ClassicTemplate. -/
def renderPreview (data : ResumeDocument) : VTree :=
  if data.template = "modern" then ModernTemplate data else ClassicTemplate data

/-- All text leaves of a visual tree, left to right. -/
def collectTexts : VTree → List String
  | .text s => [s]
  | .node _ [] => []
  | .node t (k :: ks) => collectTexts k ++ collectTexts (.node t ks)

/-- JavaScript `a || b` for strings: the empty string is the only falsy
string. -/
def jsOrString (s dflt : String) : String :=
  if s = "" then dflt else s

/-- The output file name `downloadPDF` passes to `pdf.save`:
firstName-or-`resume`, a dash, lastName-or-`resume`, and the `.pdf`
extension. -/
def downloadPDFFileName (data : ResumeDocument) : String :=
  jsOrString data.personal.firstName "resume" ++ "-" ++
    jsOrString data.personal.lastName "resume" ++ ".pdf"

/-- The text content one experience entry contributes to the Modern
layout, in render order. -/
def modernExpTexts (e : ExperienceEntry) : List String :=
  [e.title, e.company, e.start, " — ", e.«end», e.description]

/-- The text content one experience entry contributes to the Classic
layout, in render order. -/
def classicExpTexts (e : ExperienceEntry) : List String :=
  [e.title, " — ", e.company, e.description, e.start, " — ", e.«end»]

/-- The text content one education entry contributes to either layout. -/
def eduTexts (e : EducationEntry) : List String :=
  [e.degree, e.school, " • ", e.year]

/-! Helper lemmas (shared, not tied to a single claim). -/

/-- Updating entries of a given id after filtering that id out changes
nothing. -/
theorem map_update_filter_ne_exp (l : List ExperienceEntry) (id : Int) (f : ExpField) (v : String) :
    (l.filter (fun e => e.id != id)).map (fun exp => if exp.id = id then setExpField exp f v else exp) =
      l.filter (fun e => e.id != id) := by
  induction l with
  | nil => rfl
  | cons e es ih =>
      by_cases h : e.id = id <;> simp [List.filter_cons, h, ih]

theorem decodePersonal_encodePersonal (p : Personal) :
    decodePersonal (encodePersonal p) = some p := rfl

theorem decodeExp_encodeExp (e : ExperienceEntry) :
    decodeExp (encodeExp e) = some e := rfl

theorem decodeEdu_encodeEdu (e : EducationEntry) :
    decodeEdu (encodeEdu e) = some e := rfl

theorem decodeStrList_map_str (l : List String) :
    decodeStrList (l.map .str) = some l := by
  induction l with
  | nil => rfl
  | cons s rest ih => simp [decodeStrList, ih]

theorem decodeExpList_map_encode (l : List ExperienceEntry) :
    decodeExpList (l.map encodeExp) = some l := by
  induction l with
  | nil => rfl
  | cons e rest ih => simp [decodeExpList, decodeExp_encodeExp, ih]

theorem decodeEduList_map_encode (l : List EducationEntry) :
    decodeEduList (l.map encodeEdu) = some l := by
  induction l with
  | nil => rfl
  | cons e rest ih => simp [decodeEduList, decodeEdu_encodeEdu, ih]

/-- Decoding inverts encoding on every document. -/
theorem decodeDoc_encodeDoc (d : ResumeDocument) :
    decodeDoc (encodeDoc d) = some d := by
  simp [decodeDoc, encodeDoc, decodePersonal_encodePersonal,
    decodeStrList_map_str, decodeExpList_map_encode, decodeEduList_map_encode]

/-! Claim theorems. -/

/-- C1.  The claim states that every sequence of valid mutations starting
from the default document keeps all `experience` (and `education`) ids
distinct.  The code draws ids from `Date.now()`, so two `addExperience`
calls within the same millisecond (both seeing clock value 5 here) produce
two entries with the same id: the claimed invariant fails on the code. -/
theorem addExperience_same_tick_duplicates_ids :
    ((applyMutations [.addExperience 5, .addExperience 5] (defaultData 0)).experience.map (fun e => e.id)) = [0, 5, 5] ∧
    ¬ ((applyMutations [.addExperience 5, .addExperience 5] (defaultData 0)).experience.map (fun e => e.id)).Nodup := by
  constructor
  · rfl
  · decide

/-- C2.  The claim states that `setTemplate` with an invalid variant such
as `"bogus"` leaves the document unchanged.  The code stores the argument
unconditionally: on the default document (template `"modern"`) the call
changes the template to `"bogus"`. -/
theorem setTemplate_bogus_changes_template :
    (setTemplate "bogus" (defaultData 0)).template = "bogus" ∧
    (defaultData 0).template = "modern" ∧
    setTemplate "bogus" (defaultData 0) ≠ defaultData 0 := by
  refine ⟨rfl, rfl, ?_⟩
  decide

/-- C3 counterexample.  The claim states that `addSkill` on a
whitespace-only string such as `"   "` leaves `skills` unchanged; the code
only rejects the empty string, so `"   "` is appended. -/
theorem addSkill_whitespace_appends :
    (addSkill "   " (defaultData 0)).skills ≠ (defaultData 0).skills ∧
    (addSkill "   " (defaultData 0)).skills = (defaultData 0).skills ++ ["   "] := by
  constructor
  · decide
  · rfl

/-- C3 amended.  `addSkill` on the empty string is a no-op; on every
non-empty string (whitespace-only included) it appends that string to the
end of `skills` and changes nothing else. -/
theorem addSkill_empty_noop_nonempty_appends (doc : ResumeDocument) (s : String) :
    (s = "" → addSkill s doc = doc) ∧
    (s ≠ "" →
      (addSkill s doc).skills = doc.skills ++ [s] ∧
      (addSkill s doc).personal = doc.personal ∧
      (addSkill s doc).summary = doc.summary ∧
      (addSkill s doc).experience = doc.experience ∧
      (addSkill s doc).education = doc.education ∧
      (addSkill s doc).template = doc.template) := by
  constructor
  · intro h
    simp [addSkill, h]
  · intro h
    simp [addSkill, h]

/-- C3 witness: the amended statement at concrete inputs. -/
theorem addSkill_empty_noop_nonempty_appends_witness :
    addSkill "" (defaultData 0) = defaultData 0 ∧
    (addSkill "Go" (defaultData 0)).skills = (defaultData 0).skills ++ ["Go"] :=
  ⟨(addSkill_empty_noop_nonempty_appends (defaultData 0) "").1 rfl,
   ((addSkill_empty_noop_nonempty_appends (defaultData 0) "Go").2 (by decide)).1⟩

/-- C7.  Updating an experience entry right after removing it is a no-op:
the document equals the post-removal state, for every id, field and
value. -/
theorem update_after_remove_noop (doc : ResumeDocument) (id : Int) (f : ExpField) (v : String) :
    updateExperience id f v (removeExperience id doc) = removeExperience id doc := by
  simp [updateExperience, removeExperience, map_update_filter_ne_exp]

/-- C8.  The export file name follows the pattern
firstName-lastName.pdf, each empty name replaced by the literal
`resume`; with both names empty the file is `resume-resume.pdf`. -/
theorem downloadPDF_filename_pattern (d : ResumeDocument) :
    (d.personal.firstName = "" → d.personal.lastName = "" →
      downloadPDFFileName d = "resume-resume.pdf") ∧
    (d.personal.firstName = "" → d.personal.lastName ≠ "" →
      downloadPDFFileName d = "resume" ++ "-" ++ d.personal.lastName ++ ".pdf") ∧
    (d.personal.firstName ≠ "" → d.personal.lastName = "" →
      downloadPDFFileName d = d.personal.firstName ++ "-" ++ "resume" ++ ".pdf") ∧
    (d.personal.firstName ≠ "" → d.personal.lastName ≠ "" →
      downloadPDFFileName d = d.personal.firstName ++ "-" ++ d.personal.lastName ++ ".pdf") := by
  refine ⟨?_, ?_, ?_, ?_⟩ <;> intro h1 h2 <;>
    simp [downloadPDFFileName, jsOrString, h1, h2]

/-- C8 witness: both names empty gives `resume-resume.pdf`. -/
theorem downloadPDF_filename_pattern_witness :
    downloadPDFFileName (setPersonalField .firstName "" (setPersonalField .lastName "" (defaultData 0))) = "resume-resume.pdf" :=
  (downloadPDF_filename_pattern (setPersonalField .firstName "" (setPersonalField .lastName "" (defaultData 0)))).1 rfl rfl

/-- C9.  `setPersonalField` replaces exactly the named field of
`personal`; every other personal field and every other section of the
document is unchanged. -/
theorem setPersonalField_frame (doc : ResumeDocument) (f : PersonalField) (v : String) :
    (setPersonalField f v doc).summary = doc.summary ∧
    (setPersonalField f v doc).skills = doc.skills ∧
    (setPersonalField f v doc).experience = doc.experience ∧
    (setPersonalField f v doc).education = doc.education ∧
    (setPersonalField f v doc).template = doc.template ∧
    getPersonal (setPersonalField f v doc).personal f = v ∧
    (∀ g : PersonalField, g ≠ f →
      getPersonal (setPersonalField f v doc).personal g = getPersonal doc.personal g) := by
  refine ⟨rfl, rfl, rfl, rfl, rfl, ?_, ?_⟩
  · cases f <;> rfl
  · intro g hg
    cases f <;> cases g <;> first | rfl | exact absurd rfl hg

/-- C9 witness: updating `firstName` leaves `lastName` unchanged on the
default document. -/
theorem setPersonalField_frame_witness :
    getPersonal (setPersonalField .firstName "Ada" (defaultData 0)).personal .lastName =
      getPersonal (defaultData 0).personal .lastName :=
  (setPersonalField_frame (defaultData 0) .firstName "Ada").2.2.2.2.2.2 .lastName (by decide)

/-- C10.  `removeExperience` and `removeEducation` keep exactly the
entries whose id differs from the argument, so one call removes every
duplicate of that id at once. -/
theorem remove_deletes_all_matching_ids (doc : ResumeDocument) (id : Int) :
    (∀ e : ExperienceEntry, e ∈ (removeExperience id doc).experience ↔ e ∈ doc.experience ∧ e.id ≠ id) ∧
    (∀ e : EducationEntry, e ∈ (removeEducation id doc).education ↔ e ∈ doc.education ∧ e.id ≠ id) := by
  constructor <;> intro e <;>
    simp [removeExperience, removeEducation, List.mem_filter]

/-- C4 counterexample.  The claim states that a stored payload which
decodes to something that is not a fully-populated document makes `load`
return the default.  The code returns whatever `JSON.parse` produced
without validating it: on the well-formed payload for the empty object,
`load` returns the empty object, which is not a document and not the
default. -/
theorem load_wellformed_nondoc_not_default :
    load 0 (some (.parsed (.obj []))) = .obj [] ∧
    decodeDoc (.obj []) = none ∧
    load 0 (some (.parsed (.obj []))) ≠ encodeDoc (defaultData 0) := by
  refine ⟨rfl, rfl, ?_⟩
  intro h
  simp [load, encodeDoc, defaultData] at h

/-- C4 amended.  `load` never raises; when the persistence slot is absent
or its contents fail to decode, it returns the built-in default document.
(A payload that decodes successfully is returned as parsed, without any
structural validation.) -/
theorem load_absent_or_malformed_default (t0 : Int) (slot : Slot)
    (h : slot = none ∨ slot = some .malformed) :
    load t0 slot = encodeDoc (defaultData t0) := by
  rcases h with h | h <;> rw [h] <;> rfl

/-- C4 witness: the amended statement at concrete inputs. -/
theorem load_absent_or_malformed_default_witness :
    load 0 none = encodeDoc (defaultData 0) ∧
    load 0 (some .malformed) = encodeDoc (defaultData 0) :=
  ⟨load_absent_or_malformed_default 0 none (Or.inl rfl),
   load_absent_or_malformed_default 0 (some .malformed) (Or.inr rfl)⟩

/-- C5.  Saving any document and loading again yields a value that decodes
to exactly that document: the encode-then-decode round trip is the
identity, for every document (hence for every reachable one) and every
prior slot content. -/
theorem save_load_roundtrip (t0 : Int) (d : ResumeDocument) (slot : Slot) :
    decodeDoc (load t0 (save d slot)) = some d :=
  decodeDoc_encodeDoc d

/-- A text leaf collects to its own string. -/
theorem collectTexts_text (s : String) : collectTexts (.text s) = [s] := by
  simp [collectTexts]

/-- A node collects the texts of its children in order. -/
theorem collectTexts_node (t : String) (kids : List VTree) :
    collectTexts (.node t kids) = kids.flatMap collectTexts := by
  induction kids with
  | nil => simp [collectTexts]
  | cons k ks ih => simp [collectTexts, ih]

theorem flatMap_map_collect {α : Type} (f : α → VTree) (l : List α) :
    (l.map f).flatMap collectTexts = l.flatMap (fun x => collectTexts (f x)) := by
  induction l with
  | nil => rfl
  | cons x xs ih => simp [ih]

theorem collectTexts_modernExpItem (e : ExperienceEntry) :
    collectTexts (modernExpItem e) = modernExpTexts e := by
  simp [modernExpItem, collectTexts, modernExpTexts]

theorem collectTexts_classicExpItem (e : ExperienceEntry) :
    collectTexts (classicExpItem e) = classicExpTexts e := by
  simp [classicExpItem, collectTexts, classicExpTexts]

theorem collectTexts_eduItem (e : EducationEntry) :
    collectTexts (eduItem e) = eduTexts e := by
  simp [eduItem, collectTexts, eduTexts]

theorem collectTexts_skillItem (s : String) :
    collectTexts (skillItem s) = [s] := by
  simp [skillItem, collectTexts]

theorem sublist_skip {α : Type} (a : α) (l r : List α) (h : l.Sublist r) :
    l.Sublist (a :: r) :=
  h.cons a

theorem sublist_into_append {α : Type} (x l r : List α) (h : l.Sublist r) :
    l.Sublist (x ++ r) :=
  h.trans (List.sublist_append_right x r)

/-- C6.  Both template renderers are pure total functions of the document
(so they cannot mutate it and are defined on empty collections), and each
includes the full text of every experience and every education entry in
stored order: the concatenated entry texts form an in-order sublist of
the text leaves of the rendered tree. -/
theorem render_includes_entries_in_order (d : ResumeDocument) :
    (d.experience.flatMap modernExpTexts).Sublist (collectTexts (ModernTemplate d)) ∧
    (d.education.flatMap eduTexts).Sublist (collectTexts (ModernTemplate d)) ∧
    (d.experience.flatMap classicExpTexts).Sublist (collectTexts (ClassicTemplate d)) ∧
    (d.education.flatMap eduTexts).Sublist (collectTexts (ClassicTemplate d)) := by
  refine ⟨?_, ?_, ?_, ?_⟩ <;>
    simp only [ModernTemplate, ClassicTemplate, collectTexts_node, collectTexts_text,
      flatMap_map_collect, collectTexts_modernExpItem, collectTexts_classicExpItem,
      collectTexts_eduItem, collectTexts_skillItem,
      List.flatMap_cons, List.flatMap_nil, List.append_nil, List.nil_append,
      List.cons_append, List.singleton_append, List.append_assoc] <;>
    repeat first
      | exact List.sublist_append_left _ _
      | exact List.Sublist.refl _
      | apply sublist_skip
      | apply sublist_into_append

end ResumeBuilder
